import Mathlib

/-!
Shallow embedding of the API request-signing authentication gate of the
`aeternis_be` repository (files `src/security/models.py`,
`src/security/services.py`, `src/security/middleware.py`).

Bytes are `Nat` values below 256 (all producers take `% 256` where needed),
timestamps are `Int` seconds since the epoch, and the durable store and the
ephemeral cache are explicit record fields threaded through the functions.
-/

set_option maxRecDepth 1000000

deriving instance DecidableEq for Except

namespace Aeternis

/-! ### Bytes, UTF-8 and hex encoding -/

/-- UTF-8 encoding of one character, as in Python's `str.encode('utf-8')`. -/
def utf8Char (c : Char) : List Nat :=
  let n := c.toNat
  if n < 0x80 then [n]
  else if n < 0x800 then
    [0xC0 + n / 64, 0x80 + n % 64]
  else if n < 0x10000 then
    [0xE0 + n / 4096, 0x80 + (n / 64) % 64, 0x80 + n % 64]
  else
    [0xF0 + n / 262144, 0x80 + (n / 4096) % 64, 0x80 + (n / 64) % 64, 0x80 + n % 64]

/-- UTF-8 encoding of a string (Python `s.encode('utf-8')`). -/
def utf8Encode (s : String) : List Nat :=
  s.data.flatMap utf8Char

/-- Lower-case hex digit for a value below 16. -/
def hexDigit (n : Nat) : Char :=
  if n < 10 then Char.ofNat (48 + n) else Char.ofNat (87 + n)

/-- Two lower-case hex digits of one byte. -/
def byteHex (b : Nat) : List Char :=
  [hexDigit (b / 16 % 16), hexDigit (b % 16)]

/-- Lower-case hex encoding of a byte list, as `bytes.hex()` / `hexdigest()`. -/
def bytesToHex (bs : List Nat) : String :=
  ⟨bs.flatMap byteHex⟩

/-! ### SHA-256 (the `hashlib.sha256` primitive used by the services) -/

/-- Truncation to a 32-bit word. -/
def w32 (n : Nat) : Nat := n % 4294967296

/-- 32-bit right rotation. -/
def rotr (k x : Nat) : Nat := w32 ((x >>> k) ||| (x <<< (32 - k)))

def bsig0 (x : Nat) : Nat := (rotr 2 x) ^^^ (rotr 13 x) ^^^ (rotr 22 x)
def bsig1 (x : Nat) : Nat := (rotr 6 x) ^^^ (rotr 11 x) ^^^ (rotr 25 x)
def ssig0 (x : Nat) : Nat := (rotr 7 x) ^^^ (rotr 18 x) ^^^ (x >>> 3)
def ssig1 (x : Nat) : Nat := (rotr 17 x) ^^^ (rotr 19 x) ^^^ (x >>> 10)

def chF (x y z : Nat) : Nat := (x &&& y) ^^^ ((0xFFFFFFFF ^^^ x) &&& z)
def majF (x y z : Nat) : Nat := (x &&& y) ^^^ (x &&& z) ^^^ (y &&& z)

/-- The 64 SHA-256 round constants, in decimal. -/
def sha256K : List Nat :=
  [1116352408, 1899447441, 3049323471, 3921009573, 961987163,
   1508970993, 2453635748, 2870763221, 3624381080, 310598401,
   607225278, 1426881987, 1925078388, 2162078206, 2614888103,
   3248222580, 3835390401, 4022224774, 264347078, 604807628,
   770255983, 1249150122, 1555081692, 1996064986, 2554220882,
   2821834349, 2952996808, 3210313671, 3336571891, 3584528711,
   113926993, 338241895, 666307205, 773529912, 1294757372,
   1396182291, 1695183700, 1986661051, 2177026350, 2456956037,
   2730485921, 2820302411, 3259730800, 3345764771, 3516065817,
   3600352804, 4094571909, 275423344, 430227734, 506948616,
   659060556, 883997877, 958139571, 1322822218, 1537002063,
   1747873779, 1955562222, 2024104815, 2227730452, 2361852424,
   2428436474, 2756734187, 3204031479, 3329325298]

/-- Working state of the compression function: eight 32-bit words. -/
structure Sha256State where
  a : Nat
  b : Nat
  c : Nat
  d : Nat
  e : Nat
  f : Nat
  g : Nat
  h : Nat

/-- Initial SHA-256 hash value, in decimal. -/
def sha256H0 : Sha256State :=
  ⟨1779033703, 3144134277, 1013904242, 2773480762,
   1359893119, 2600822924, 528734635, 1541459225⟩

/-- One compression round; `kw` is the round constant plus the schedule word. -/
def sha256Round (s : Sha256State) (kw : Nat) : Sha256State :=
  let t1 := w32 (s.h + bsig1 s.e + chF s.e s.f s.g + kw)
  let t2 := w32 (bsig0 s.a + majF s.a s.b s.c)
  ⟨w32 (t1 + t2), s.a, s.b, s.c, w32 (s.d + t1), s.e, s.f, s.g⟩

/-- Big-endian packing of a byte list into 32-bit words (4 bytes each). -/
def bytesToWords : List Nat → List Nat
  | b0 :: b1 :: b2 :: b3 :: rest =>
      (b0 * 16777216 + b1 * 65536 + b2 * 256 + b3) :: bytesToWords rest
  | _ => []

/-- Message-schedule extension: given the reversed list of words so far,
produce the next word from words 2, 7, 15 and 16 back. -/
def scheduleNext (rws : List Nat) : Nat :=
  let g := fun (i : Nat) => rws.getD i 0
  w32 (ssig1 (g 1) + g 6 + ssig0 (g 14) + g 15)

/-- Extend the 16 block words to the 64 schedule words (result reversed). -/
def extendWords : Nat → List Nat → List Nat
  | 0, rws => rws
  | n + 1, rws => extendWords n (scheduleNext rws :: rws)

/-- The 64-word message schedule of one 16-word block. -/
def sha256Schedule (block : List Nat) : List Nat :=
  (extendWords 48 block.reverse).reverse

/-- Compress one 64-byte block into the running hash value. -/
def sha256Block (hv : Sha256State) (block : List Nat) : Sha256State :=
  let ws := sha256Schedule (bytesToWords block)
  let s := (sha256K.zip ws).foldl (fun s kw => sha256Round s (w32 (kw.1 + kw.2))) hv
  ⟨w32 (hv.a + s.a), w32 (hv.b + s.b), w32 (hv.c + s.c), w32 (hv.d + s.d),
   w32 (hv.e + s.e), w32 (hv.f + s.f), w32 (hv.g + s.g), w32 (hv.h + s.h)⟩

/-- Split a byte list into 64-byte chunks (`fuel` bounds the recursion). -/
def chunks64 : Nat → List Nat → List (List Nat)
  | 0, _ => []
  | _, [] => []
  | fuel + 1, bs => bs.take 64 :: chunks64 fuel (bs.drop 64)

/-- SHA-256 padding: `0x80`, zeros to 56 mod 64, 8-byte big-endian bit length. -/
def sha256Pad (msg : List Nat) : List Nat :=
  let len := msg.length
  let padLen := (55 + 64 - len % 64) % 64 + 1
  let bitLen := len * 8
  msg ++ [0x80] ++ List.replicate (padLen - 1) 0 ++
    [bitLen / 72057594037927936 % 256, bitLen / 281474976710656 % 256,
     bitLen / 1099511627776 % 256, bitLen / 4294967296 % 256,
     bitLen / 16777216 % 256, bitLen / 65536 % 256,
     bitLen / 256 % 256, bitLen % 256]

/-- Big-endian bytes of one 32-bit word. -/
def wordBytes (w : Nat) : List Nat :=
  [w / 16777216 % 256, w / 65536 % 256, w / 256 % 256, w % 256]

/-- The 32 digest bytes of a final hash state. -/
def digestBytes (s : Sha256State) : List Nat :=
  wordBytes s.a ++ wordBytes s.b ++ wordBytes s.c ++ wordBytes s.d ++
  wordBytes s.e ++ wordBytes s.f ++ wordBytes s.g ++ wordBytes s.h

/-- SHA-256 of a byte list, as 32 digest bytes. -/
def sha256 (msg : List Nat) : List Nat :=
  let padded := sha256Pad msg
  digestBytes ((chunks64 (padded.length / 64 + 1) padded).foldl sha256Block sha256H0)

/-- Model of `hashlib.sha256(msg).hexdigest()`. -/
def sha256Hex (msg : List Nat) : String :=
  bytesToHex (sha256 msg)

/-! ### HMAC-SHA256 (the `hmac` primitive used by the services) -/

/-- HMAC-SHA256 digest bytes, RFC 2104 with a 64-byte block size. -/
def hmacSha256 (key msg : List Nat) : List Nat :=
  let key := if key.length > 64 then sha256 key else key
  let key := key ++ List.replicate (64 - key.length) 0
  let ipadKey := key.map (fun b => b ^^^ 0x36)
  let opadKey := key.map (fun b => b ^^^ 0x5c)
  sha256 (opadKey ++ sha256 (ipadKey ++ msg))

/-- Model of `hmac.new(key, msg, hashlib.sha256).hexdigest()`. -/
def hmacSha256Hex (key msg : List Nat) : String :=
  bytesToHex (hmacSha256 key msg)

/-! ### String helpers (kernel-friendly models of the Python string operations) -/

/-- Whether `needle` occurs as a contiguous substring: Python `needle in hay`. -/
def subList (needle : List Char) : List Char → Bool
  | [] => needle.isEmpty
  | c :: rest => needle.isPrefixOf (c :: rest) || subList needle rest

/-- Python `hay.__contains__(needle)` on strings. -/
def strContainsSub (hay needle : String) : Bool :=
  subList needle.data hay.data

/-- Python `s.startswith(p)`. -/
def strStartsWith (s p : String) : Bool :=
  p.data.isPrefixOf s.data

/-- Python `s.rstrip('/')`. -/
def rstripSlash (s : String) : String :=
  ⟨(s.data.reverse.dropWhile (fun c => c == '/')).reverse⟩

/-- Split at the first occurrence of `sep`, if any. -/
def breakOnSub (sep : List Char) : List Char → Option (List Char × List Char)
  | [] => if sep.isEmpty then some ([], []) else none
  | c :: rest =>
    if sep.isPrefixOf (c :: rest) then some ([], (c :: rest).drop sep.length)
    else
      match breakOnSub sep rest with
      | some (pre, post) => some (c :: pre, post)
      | none => none

/-- Model of rebuilding scheme plus netloc from `urlparse(origin)`: the
scheme is what precedes the first `"://"` and the netloc runs from there to
the next `/`; with no `"://"` both come out empty. -/
def schemeNetloc (url : String) : String :=
  match breakOnSub "://".data url.data with
  | none => "://"
  | some (scheme, rest) => ⟨scheme⟩ ++ "://" ++ ⟨rest.takeWhile (fun c => c ≠ '/')⟩

/-- Strip leading and trailing whitespace (Python `int` accepts padded input). -/
def stripWs (cs : List Char) : List Char :=
  ((cs.dropWhile Char.isWhitespace).reverse.dropWhile Char.isWhitespace).reverse

/-- Decimal value of a digit list. -/
def digitsToNat (cs : List Char) : Nat :=
  cs.foldl (fun n c => n * 10 + (c.toNat - 48)) 0

/-- Model of Python `int(s)` on strings: optional surrounding whitespace,
optional sign, one or more decimal digits; `none` models `ValueError`. -/
def parseIntPy (s : String) : Option Int :=
  let t := stripWs s.data
  let signDigits : Int × List Char :=
    match t with
    | '-' :: rest => (-1, rest)
    | '+' :: rest => (1, rest)
    | cs => (1, cs)
  if signDigits.2.isEmpty then none
  else if signDigits.2.all Char.isDigit then
    some (signDigits.1 * (digitsToNat signDigits.2 : Int))
  else none

/-! ### Configuration surface (`django.conf.settings` fields the gate reads) -/

/-- The settings the security subsystem reads, with the `getattr` defaults
from `src/security/services.py` / `src/security/middleware.py`. -/
structure Settings where
  api_challenge_token_expiry : Int := 300
  api_request_timestamp_tolerance : Int := 60
  frontend_url : String := ""
  debug : Bool := false
deriving DecidableEq, Repr

/-! ### Data model (`src/security/models.py`) -/

/-- Record `ApiChallengeToken`: challenge token issued for request signing.
`expires_at` is in seconds since the epoch (`DateTimeField` instants are
embedded as integers). -/
structure ApiChallengeToken where
  token : String
  secret : String
  expires_at : Int
  is_revoked : Bool := false
deriving DecidableEq, Repr

/-- Property `ApiChallengeToken.is_expired`: `timezone.now() > self.expires_at`. -/
def ApiChallengeToken.is_expired (now : Int) (t : ApiChallengeToken) : Bool :=
  decide (now > t.expires_at)

/-- Property `ApiChallengeToken.is_valid`: not expired and not revoked. -/
def ApiChallengeToken.is_valid (now : Int) (t : ApiChallengeToken) : Bool :=
  !(t.is_expired now) && !t.is_revoked

/-- Record `ApiNonce`: one consumed single-use value; `token` is the public token
of the owning `ApiChallengeToken` (the `ForeignKey`). -/
structure ApiNonce where
  nonce : String
  token : String
  used_at : Int
  expires_at : Int
deriving DecidableEq, Repr

/-- The durable store (the two model tables) plus the ephemeral cache,
which holds the keys `"api_nonce:<nonce>"` whose flag is set. -/
structure Store where
  tokens : List ApiChallengeToken
  nonces : List ApiNonce
  nonce_cache : List String
deriving DecidableEq, Repr

/-! ### Exceptions (`src/security/services.py`) -/

/-- The `SecurityError` hierarchy; each constructor is one subclass and
carries the message the service raises it with. `securityError` is the base
class, raised directly by `OriginValidator`. -/
inductive SecurityError where
  | securityError (msg : String)
  | tokenExpired (msg : String)
  | invalidSignature (msg : String)
  | nonceReused (msg : String)
  | invalidTimestamp (msg : String)
deriving DecidableEq, Repr

/-- Value of `str(e)` on a `SecurityError`. -/
def SecurityError.message : SecurityError → String
  | .securityError m => m
  | .tokenExpired m => m
  | .invalidSignature m => m
  | .nonceReused m => m
  | .invalidTimestamp m => m

/-! ### `ChallengeTokenService` (`src/security/services.py`) -/

namespace ChallengeTokenService

/-- Method `ChallengeTokenService.validate_token`: look the token up by its public
string (`objects.get`), raise `TokenExpiredError("Invalid token")` when
absent, `TokenExpiredError("Token expired or revoked")` when present but not
`is_valid`, and return the record otherwise. -/
def validate_token (st : Store) (now : Int) (token_string : String) :
    Except SecurityError ApiChallengeToken :=
  match st.tokens.find? (fun t => t.token == token_string) with
  | none => .error (.tokenExpired "Invalid token")
  | some token_obj =>
    if token_obj.is_valid now then .ok token_obj
    else .error (.tokenExpired "Token expired or revoked")

/-- Method `ChallengeTokenService.get_token_secret`: validate, then return the
secret. -/
def get_token_secret (st : Store) (now : Int) (token_string : String) :
    Except SecurityError String :=
  (validate_token st now token_string).map (fun t => t.secret)

end ChallengeTokenService

/-! ### `RequestSigningService` (`src/security/services.py`) -/

namespace RequestSigningService

/-- Method `RequestSigningService.calculate_signature`: hex HMAC-SHA256 of the
pipe-delimited signing string, keyed by the UTF-8 bytes of the secret. -/
def calculate_signature (token secret timestamp nonce method path : String)
    (body_hash : String := "") : String :=
  let signature_string :=
    token ++ "|" ++ timestamp ++ "|" ++ nonce ++ "|" ++ method ++ "|" ++ path ++ "|" ++ body_hash
  hmacSha256Hex (utf8Encode secret) (utf8Encode signature_string)

/-- Model of `hmac.compare_digest`: constant-time digest comparison; its value is
equality of the two strings (the timing behaviour is not modelled). -/
def compare_digest (a b : String) : Bool :=
  a == b

/-- Method `RequestSigningService.validate_signature`: fetch the token's secret
(`TokenExpiredError` becomes `InvalidSignatureError("Invalid or expired
token")`), recompute the signature and compare with `compare_digest`,
raising `InvalidSignatureError("Invalid signature")` on mismatch. -/
def validate_signature (st : Store) (now : Int)
    (token timestamp nonce method path body_hash signature : String) :
    Except SecurityError Bool :=
  match ChallengeTokenService.get_token_secret st now token with
  | .error _ => .error (.invalidSignature "Invalid or expired token")
  | .ok secret =>
    let expected_signature :=
      calculate_signature token secret timestamp nonce method path body_hash
    if !(compare_digest expected_signature signature) then
      .error (.invalidSignature "Invalid signature")
    else
      .ok true

/-- Method `RequestSigningService.validate_timestamp`: parse the string as an
integer (`InvalidTimestampError("Invalid timestamp format")` on failure),
then compare `abs(now - timestamp)` against the configured tolerance. -/
def validate_timestamp (s : Settings) (now : Int) (timestamp_str : String) :
    Except SecurityError Int :=
  match parseIntPy timestamp_str with
  | none => .error (.invalidTimestamp "Invalid timestamp format")
  | some timestamp =>
    let tolerance := s.api_request_timestamp_tolerance
    let time_diff := |now - timestamp|
    if time_diff > tolerance then
      .error (.invalidTimestamp
        ("Timestamp outside tolerance window (+-" ++ toString tolerance ++ "s)"))
    else
      .ok timestamp

/-- Method `RequestSigningService.check_nonce`, sequential semantics: reject when
the cache flag is set, then when a durable record with the nonce exists;
otherwise create the record (`expires_at` is `max(token expiry, 300)` from
now) and set the cache flag, returning the new record and updated store. -/
def check_nonce (s : Settings) (now : Int) (st : Store)
    (token_obj : ApiChallengeToken) (nonce : String) :
    Except SecurityError (ApiNonce × Store) :=
  if st.nonce_cache.contains ("api_nonce:" ++ nonce) then
    .error (.nonceReused "Nonce has already been used")
  else if st.nonces.any (fun n => n.nonce == nonce) then
    .error (.nonceReused "Nonce has already been used")
  else
    let nonce_expiry_seconds := max s.api_challenge_token_expiry 300
    let expires_at := now + nonce_expiry_seconds
    let nonce_obj : ApiNonce :=
      { nonce := nonce, token := token_obj.token, used_at := now, expires_at := expires_at }
    .ok (nonce_obj,
      { st with nonces := st.nonces ++ [nonce_obj],
                nonce_cache := st.nonce_cache ++ ["api_nonce:" ++ nonce] })

/-- Method `RequestSigningService.hash_body`: empty string for an empty body, hex
SHA-256 of the raw bytes otherwise. -/
def hash_body (body_bytes : List Nat) : String :=
  if body_bytes.isEmpty then "" else sha256Hex body_bytes

end RequestSigningService

/-! ### `OriginValidator` (`src/security/services.py`) -/

namespace OriginValidator

/-- The localhost variants accepted in DEBUG mode. -/
def localhost_variants : List String :=
  ["http://localhost:3000", "http://127.0.0.1:3000",
   "http://localhost:5173", "http://127.0.0.1:5173"]

/-- Method `OriginValidator.validate_origin`: take `HTTP_ORIGIN` falling back to
`HTTP_REFERER` (Python `or`: an empty origin string also falls back), strip
any path with `urlparse` when the value starts with `"http"`, then compare
with `FRONTEND_URL` after removing trailing slashes from both; in DEBUG with
no configured frontend URL everything is allowed, and in DEBUG a mismatch is
still allowed for the localhost variants. -/
def validate_origin (s : Settings) (origin_header referer_header : Option String) :
    Except SecurityError Bool :=
  let origin0 :=
    match origin_header with
    | some o => if o == "" then referer_header.getD "" else o
    | none => referer_header.getD ""
  let origin1 := if strStartsWith origin0 "http" then schemeNetloc origin0 else origin0
  if s.frontend_url == "" then
    if s.debug then .ok true
    else .error (.securityError "FRONTEND_URL not configured")
  else
    let origin := rstripSlash origin1
    let frontend_url := rstripSlash s.frontend_url
    if origin != frontend_url then
      if s.debug && localhost_variants.contains origin then .ok true
      else .error (.securityError ("Invalid origin: " ++ origin))
    else .ok true

end OriginValidator

/-! ### `ApiSecurityMiddleware` (`src/security/middleware.py`) -/

/-- The parts of a Django request the gate reads. `origin`, `referer` and
the four `X-Api-*` headers are `none` when absent from `request.META`. -/
structure Request where
  method : String
  path : String
  origin : Option String
  referer : Option String
  header_token : Option String
  header_timestamp : Option String
  header_nonce : Option String
  header_signature : Option String
  body : List Nat
deriving DecidableEq, Repr

/-- Result of `process_request`: `passthrough` is the Python `return None`
(the request proceeds to the view), `response` is a returned `JsonResponse`
with its status and the value of its single `error` field. -/
inductive GateOutcome where
  | passthrough
  | response (status : Nat) (error : String)
deriving DecidableEq, Repr

namespace ApiSecurityMiddleware

/-- List `EXCLUDED_PATHS`: exact paths that skip validation. -/
def EXCLUDED_PATHS : List String :=
  ["/api/security/challenge/", "/admin/", "/health/", "/api/"]

/-- List `EXCLUDED_PREFIXES`: path beginnings that skip validation. -/
def EXCLUDED_PREFIXES : List String :=
  ["/admin/", "/static/", "/media/"]

/-- Method `ApiSecurityMiddleware._should_skip_validation`. -/
def should_skip_validation (path : String) : Bool :=
  EXCLUDED_PATHS.contains path || EXCLUDED_PREFIXES.any (fun p => strStartsWith path p)

/-- Python truthiness of an optional header value: absent and empty-string
values are both falsy in `all([token, timestamp, nonce, signature])`. -/
def truthy : Option String → Bool
  | none => false
  | some v => !(v == "")

/-- Method `ApiSecurityMiddleware.process_request`, sequential semantics: the
exclusion short-circuits, then origin, header presence, token, timestamp,
nonce and signature validation in the source's order, each failure mapped to
the `JsonResponse` its handler builds. The returned store reflects the side
effects performed (the nonce registration). -/
def process_request (s : Settings) (now : Int) (st : Store) (req : Request) :
    GateOutcome × Store :=
  if should_skip_validation req.path then (.passthrough, st)
  else if req.method == "OPTIONS" then (.passthrough, st)
  else if !(strStartsWith req.path "/api/") then (.passthrough, st)
  else if strContainsSub req.path "/webhook/" then (.passthrough, st)
  else
    match OriginValidator.validate_origin s req.origin req.referer with
    | .error e => (.response 401 e.message, st)
    | .ok _ =>
      if !(truthy req.header_token && truthy req.header_timestamp &&
           truthy req.header_nonce && truthy req.header_signature) then
        (.response 401 "Missing required security headers", st)
      else
        let token := req.header_token.getD ""
        let timestamp := req.header_timestamp.getD ""
        let nonce := req.header_nonce.getD ""
        let signature := req.header_signature.getD ""
        match ChallengeTokenService.validate_token st now token with
        | .error _ => (.response 401 "Invalid or expired token", st)
        | .ok token_obj =>
          match RequestSigningService.validate_timestamp s now timestamp with
          | .error e => (.response 401 e.message, st)
          | .ok _ =>
            match RequestSigningService.check_nonce s now st token_obj nonce with
            | .error _ => (.response 401 "Nonce has already been used", st)
            | .ok (_, st') =>
              let body_hash := RequestSigningService.hash_body req.body
              match RequestSigningService.validate_signature st' now
                  token timestamp nonce req.method req.path body_hash signature with
              | .error _ => (.response 401 "Invalid signature", st')
              | .ok _ => (.passthrough, st')

end ApiSecurityMiddleware

/-! ### Interleaved small-step model of `check_nonce`

`check_nonce` performs four externally visible operations in order: read the
cache flag, query the durable store for the nonce, insert the nonce row
(atomic, under the `unique=True` constraint on `ApiNonce.nonce`; a duplicate
insert raises `IntegrityError`, which `check_nonce` does not catch), and set
the cache flag. Concurrent calls presenting the same nonce value interleave
these steps; the shared state is the pair of flags for that one value. -/

/-- How one `check_nonce` call ends in the small-step model. -/
inductive NonceOutcome where
  | accepted
  | alreadyUsed
  | integrityError
deriving DecidableEq, Repr

/-- Program counter of one in-flight `check_nonce` call. -/
inductive NoncePc where
  | checkCache
  | checkDb
  | insertDb
  | setCache
  | finished (r : NonceOutcome)
deriving DecidableEq, Repr

/-- Shared state for one nonce value: the cache flag and whether the durable
store holds a row for it. -/
structure NonceState where
  cached : Bool
  stored : Bool
deriving DecidableEq, Repr

/-- One atomic step of one `check_nonce` call. -/
def nonceStep (st : NonceState) : NoncePc → NonceState × NoncePc
  | .checkCache =>
      if st.cached then (st, .finished .alreadyUsed) else (st, .checkDb)
  | .checkDb =>
      if st.stored then (st, .finished .alreadyUsed) else (st, .insertDb)
  | .insertDb =>
      if st.stored then (st, .finished .integrityError)
      else ({ st with stored := true }, .setCache)
  | .setCache => ({ st with cached := true }, .finished .accepted)
  | .finished r => (st, .finished r)

/-- Run the process named by the schedule entry for one step. -/
def schedStep (cfg : NonceState × List NoncePc) (i : Nat) : NonceState × List NoncePc :=
  match cfg.2.get? i with
  | none => cfg
  | some pc =>
    let (st', pc') := nonceStep cfg.1 pc
    (st', cfg.2.set i pc')

/-- Run a list of concurrent `check_nonce` calls under a schedule (a list of
process indices, one per step). -/
def runSched (st : NonceState) (procs : List NoncePc) (sched : List Nat) :
    NonceState × List NoncePc :=
  sched.foldl schedStep (st, procs)

/-- Python exceptions reaching the middleware's `try` from the nonce check:
a `SecurityError` subclass, or the database `IntegrityError` (with its
message) from the duplicate-key insert. -/
inductive PyExc where
  | security (e : SecurityError)
  | integrityError (msg : String)
deriving DecidableEq, Repr

/-- The response `process_request` produces when `check_nonce` raises:
`NonceReusedError` hits the inner handler (401), any other `SecurityError`
the outer `except SecurityError` (401 with `str(e)`), and everything else,
`IntegrityError` included, the final `except Exception` (500, with the
detail suppressed unless DEBUG). -/
def nonce_step_response (s : Settings) (exc : PyExc) : GateOutcome :=
  match exc with
  | .security (.nonceReused _) => .response 401 "Nonce has already been used"
  | .security e => .response 401 e.message
  | .integrityError msg =>
      if s.debug then .response 500 ("Security validation error: " ++ msg)
      else .response 500 "Security validation failed"

/-- Variant of a request in which every present-but-empty security header is
removed entirely, to compare the empty-value and absent-header cases. -/
def dropBlankHeaders (req : Request) : Request :=
  { req with
    header_token := if req.header_token = some "" then none else req.header_token,
    header_timestamp := if req.header_timestamp = some "" then none else req.header_timestamp,
    header_nonce := if req.header_nonce = some "" then none else req.header_nonce,
    header_signature := if req.header_signature = some "" then none else req.header_signature }

/-! ### Concrete fixtures used in evaluations -/

/-- Production-like settings: a configured frontend origin, DEBUG off. -/
def settingsW : Settings := { frontend_url := "https://app.example.com" }

/-- A stored, unrevoked token valid until time 1000. -/
def tokW : ApiChallengeToken := { token := "tokA", secret := "secA", expires_at := 1000 }

/-- A revoked token that would otherwise still be within its TTL. -/
def tokRevokedW : ApiChallengeToken :=
  { token := "tokR", secret := "secR", expires_at := 1000, is_revoked := true }

/-- Store holding the two tokens, no nonces, empty cache. -/
def stW : Store := { tokens := [tokW, tokRevokedW], nonces := [], nonce_cache := [] }

/-- The correct signature of the fixture request at timestamp 990. -/
def sigW : String :=
  RequestSigningService.calculate_signature "tokA" "secA" "990" "n1" "POST" "/api/orders/" ""

/-- The correct signature of the replay request at timestamp 991. -/
def sigW2 : String :=
  RequestSigningService.calculate_signature "tokA" "secA" "991" "n1" "POST" "/api/orders/" ""

/-- A fully well-formed gated request. -/
def reqW : Request :=
  { method := "POST", path := "/api/orders/", origin := some "https://app.example.com",
    referer := none, header_token := some "tokA", header_timestamp := some "990",
    header_nonce := some "n1", header_signature := some sigW, body := [] }

/-- The well-formed request with its token header removed. -/
def reqMissingW : Request := { reqW with header_token := none }

/-- The well-formed request presenting an unknown public token. -/
def reqBadTokenW : Request := { reqW with header_token := some "unknown" }

/-- The well-formed request with an empty nonce header value. -/
def reqEmptyNonceW : Request := { reqW with header_nonce := some "" }

/-- The well-formed request with a wrong signature. -/
def reqBadSigW : Request := { reqW with header_signature := some "deadbeef" }

/-- Replay of the same nonce at timestamp 991 with a correct signature. -/
def reqReplayW : Request :=
  { reqW with header_timestamp := some "991", header_signature := some sigW2 }

/-- The well-formed request aimed at the health-check path. -/
def reqHealthW : Request := { reqW with path := "/health/" }

/-- The nonce record that accepting `reqW` at time 990 creates. -/
def nonceObjW : ApiNonce := { nonce := "n1", token := "tokA", used_at := 990, expires_at := 1290 }

/-- The store after `reqW`'s nonce has been registered. -/
def nonceStW : Store :=
  { tokens := [tokW, tokRevokedW], nonces := [nonceObjW], nonce_cache := ["api_nonce:n1"] }

end Aeternis

namespace Aeternis

/-! ### Helper lemmas -/

theorem flatMap_byteHex_length (bs : List Nat) : (bs.flatMap byteHex).length = 2 * bs.length := by
  induction bs with
  | nil => rfl
  | cons b rest ih => simp [byteHex, ih]; ring

theorem bytesToHex_length (bs : List Nat) : (bytesToHex bs).length = 2 * bs.length := by
  show (bs.flatMap byteHex).length = 2 * bs.length
  exact flatMap_byteHex_length bs

theorem digestBytes_length (s : Sha256State) : (digestBytes s).length = 32 := by
  simp [digestBytes, wordBytes]

theorem sha256_length (m : List Nat) : (sha256 m).length = 32 := by
  simp only [sha256]
  exact digestBytes_length _

theorem hmacSha256Hex_length (k m : List Nat) : (hmacSha256Hex k m).length = 64 := by
  simp only [hmacSha256Hex, hmacSha256, bytesToHex_length, sha256_length]

theorem calculate_signature_length (token secret timestamp nonce method path body_hash : String) :
    (RequestSigningService.calculate_signature
      token secret timestamp nonce method path body_hash).length = 64 := by
  simp only [RequestSigningService.calculate_signature, hmacSha256Hex_length]

theorem string_ne_of_length_ne {a b : String} (h : a.length ≠ b.length) : a ≠ b :=
  fun hab => h (by rw [hab])

/-! ### Claim theorems -/

/-- C4: `validate_timestamp` fails with the malformed-timestamp kind exactly
when the input does not parse as an integer; otherwise it fails with the
out-of-tolerance kind exactly when `|now - parsed|` strictly exceeds the
tolerance, so the boundary difference is accepted, and on success it returns
the parsed integer. -/
theorem validate_timestamp_spec (s : Settings) (now : Int) (str : String) :
    (parseIntPy str = none →
      RequestSigningService.validate_timestamp s now str =
        .error (.invalidTimestamp "Invalid timestamp format")) ∧
    (∀ ts : Int, parseIntPy str = some ts →
      (|now - ts| > s.api_request_timestamp_tolerance →
        RequestSigningService.validate_timestamp s now str =
          .error (.invalidTimestamp
            ("Timestamp outside tolerance window (+-" ++
              toString s.api_request_timestamp_tolerance ++ "s)"))) ∧
      (|now - ts| ≤ s.api_request_timestamp_tolerance →
        RequestSigningService.validate_timestamp s now str = .ok ts)) := by
  refine ⟨fun h => ?_, fun ts h => ⟨fun hgt => ?_, fun hle => ?_⟩⟩
  · simp [RequestSigningService.validate_timestamp, h]
  · simp [RequestSigningService.validate_timestamp, h, hgt]
  · simp [RequestSigningService.validate_timestamp, h, not_lt.mpr hle]

/-- Witness for C4: with the default 60-second tolerance, the timestamp 940
at now = 1000 (difference exactly 60) parses and is accepted. -/
theorem validate_timestamp_spec_witness :
    RequestSigningService.validate_timestamp {} 1000 "940" = .ok 940 :=
  ((validate_timestamp_spec {} 1000 "940").2 940 (by decide)).2 (by decide)

/-- C6: `validate_token` returns the stored record exactly when the token is
unrevoked and `now ≤ expires_at` (the boundary instant included); a revoked
token is rejected regardless of remaining TTL and an unknown public token is
rejected with the same `TokenExpiredError` kind. -/
theorem validate_token_spec (st : Store) (now : Int) (q : String) :
    (∀ tok, st.tokens.find? (fun t => t.token == q) = some tok →
      (ChallengeTokenService.validate_token st now q = .ok tok ↔
        (tok.is_revoked = false ∧ now ≤ tok.expires_at)) ∧
      (tok.is_revoked = true →
        ChallengeTokenService.validate_token st now q =
          .error (.tokenExpired "Token expired or revoked"))) ∧
    (st.tokens.find? (fun t => t.token == q) = none →
      ChallengeTokenService.validate_token st now q =
        .error (.tokenExpired "Invalid token")) := by
  constructor
  · intro tok hfind
    have hval : tok.is_valid now = true ↔ (tok.is_revoked = false ∧ now ≤ tok.expires_at) := by
      simp [ApiChallengeToken.is_valid, ApiChallengeToken.is_expired, not_lt, and_comm]
    constructor
    · by_cases hv : tok.is_valid now = true
      · simp [ChallengeTokenService.validate_token, hfind, hv, hval.mp hv]
      · have : tok.is_valid now = false := by
          cases hb : tok.is_valid now
          · rfl
          · exact absurd hb hv
        simp [ChallengeTokenService.validate_token, hfind, this]
        intro hc
        by_contra hc2
        exact hv (hval.mpr ⟨hc, not_lt.mp hc2⟩)
    · intro hrev
      have : tok.is_valid now = false := by
        simp [ApiChallengeToken.is_valid, hrev]
      simp [ChallengeTokenService.validate_token, hfind, this]
  · intro hnone
    simp [ChallengeTokenService.validate_token, hnone]

/-- Witness for C6: at the boundary instant `now = expires_at` the stored
token validates, and the revoked fixture token is rejected. -/
theorem validate_token_spec_witness :
    ChallengeTokenService.validate_token stW 1000 "tokA" = .ok tokW ∧
    ChallengeTokenService.validate_token stW 0 "tokR" =
      .error (.tokenExpired "Token expired or revoked") :=
  ⟨((validate_token_spec stW 1000 "tokA").1 tokW (by decide)).1.mpr (by decide),
   ((validate_token_spec stW 0 "tokR").1 tokRevokedW (by decide)).2 (by decide)⟩

/-- C2: a nonce value with a durable record or a set cache flag is rejected
with `NonceReusedError` and no record is created; in particular replaying a
nonce that a previous `check_nonce` call successfully registered is always
rejected with `NonceReusedError`, whatever settings, time or token the
replay presents. -/
theorem check_nonce_single_use (s s2 : Settings) (now now2 : Int) (st : Store)
    (tok tok2 : ApiChallengeToken) (v : String) :
    ((st.nonces.any (fun n => n.nonce == v) = true ∨
      st.nonce_cache.contains ("api_nonce:" ++ v) = true) →
      RequestSigningService.check_nonce s now st tok v =
        .error (.nonceReused "Nonce has already been used")) ∧
    (∀ nobj st', RequestSigningService.check_nonce s now st tok v = .ok (nobj, st') →
      RequestSigningService.check_nonce s2 now2 st' tok2 v =
        .error (.nonceReused "Nonce has already been used")) := by
  constructor
  · rintro (hdb | hcache)
    · simp only [List.any_eq_true, beq_iff_eq] at hdb
      by_cases hc : ("api_nonce:" ++ v) ∈ st.nonce_cache
      · simp [RequestSigningService.check_nonce, hc]
      · simp [RequestSigningService.check_nonce, hc, hdb]
    · have hcache' : ("api_nonce:" ++ v) ∈ st.nonce_cache := by simpa using hcache
      simp [RequestSigningService.check_nonce, hcache']
  · intro nobj st' h
    simp only [RequestSigningService.check_nonce] at h
    by_cases hc : ("api_nonce:" ++ v) ∈ st.nonce_cache
    · simp [hc] at h
    · by_cases hdb : ∃ x ∈ st.nonces, x.nonce = v
      · simp [hc, hdb] at h
      · simp [hc, hdb] at h
        obtain ⟨h1, h2⟩ := h
        subst h2
        simp [RequestSigningService.check_nonce]

/-- Witness for C2: after the fixture store accepts nonce `n1`, presenting
`n1` again is rejected with `NonceReusedError`. -/
theorem check_nonce_single_use_witness :
    RequestSigningService.check_nonce settingsW 991 nonceStW tokW "n1" =
      .error (.nonceReused "Nonce has already been used") :=
  (check_nonce_single_use settingsW settingsW 990 991 stW tokW tokW "n1").2
    nonceObjW nonceStW (by decide)

/-- C1: the interleaved small-step model of two concurrent `check_nonce`
calls on the same fresh nonce value admits a schedule (both calls pass the
cache and store checks before either inserts) in which one call is accepted
and the other ends in an uncaught `IntegrityError` — neither a second
`Accepted` nor the `AlreadyUsed` the claim requires of every other call. -/
theorem check_nonce_race_not_atomic :
    runSched ⟨false, false⟩ [.checkCache, .checkCache] [0, 0, 1, 1, 0, 0, 1] =
      (⟨true, true⟩, [.finished .accepted, .finished .integrityError]) ∧
    NonceOutcome.integrityError ≠ NonceOutcome.accepted ∧
    NonceOutcome.integrityError ≠ NonceOutcome.alreadyUsed := by decide

/-- C3: when the durable insert inside `check_nonce` hits the uniqueness
constraint (the racing schedule below), the raised `IntegrityError` is not
reinterpreted as `AlreadyUsed`: the middleware's final handler turns it into
a 500 response, not the 401 nonce-reuse rejection. -/
theorem check_nonce_integrity_error_is_500 :
    (runSched ⟨false, false⟩ [.checkCache, .checkCache] [0, 0, 1, 1, 0, 0, 1]).2 =
      [.finished .accepted, .finished .integrityError] ∧
    nonce_step_response settingsW
        (.integrityError "duplicate key value violates unique constraint") =
      .response 500 "Security validation failed" ∧
    (GateOutcome.response 500 "Security validation failed" ≠
      .response 401 "Nonce has already been used") := by decide

/-- C10: a request whose path does not start with `/api/`, or contains
`/webhook/`, or whose method is `OPTIONS`, or whose path is excluded exactly
or by one of the excluded path beginnings, passes through unconditionally
with the store untouched. -/
theorem gate_skips_excluded (s : Settings) (now : Int) (st : Store) (req : Request)
    (h : strStartsWith req.path "/api/" = false ∨
         strContainsSub req.path "/webhook/" = true ∨
         req.method = "OPTIONS" ∨
         ApiSecurityMiddleware.should_skip_validation req.path = true) :
    ApiSecurityMiddleware.process_request s now st req = (.passthrough, st) := by
  unfold ApiSecurityMiddleware.process_request
  cases h1 : ApiSecurityMiddleware.should_skip_validation req.path <;>
  cases h2 : req.method == "OPTIONS" <;>
  cases h3 : strStartsWith req.path "/api/" <;>
  cases h4 : strContainsSub req.path "/webhook/" <;>
    simp_all

/-- Witness for C10: the health-check path is excluded exactly, so the gate
passes the request through and leaves the store unchanged. -/
theorem gate_skips_excluded_witness :
    ApiSecurityMiddleware.process_request settingsW 990 stW reqHealthW = (.passthrough, stW) :=
  gate_skips_excluded settingsW 990 stW reqHealthW (Or.inr (Or.inr (Or.inr (by decide))))

/-- C5: for a stored, valid token, `validate_signature` succeeds exactly when
the provided signature equals the hex HMAC-SHA256, keyed by the token's
stored secret, of `token|timestamp|nonce|method|path|body_hash` (compared by
`compare_digest`); any differing provided signature — in particular one
computed with a different secret, whenever the digests differ — is rejected
with `InvalidSignatureError("Invalid signature")`. -/
theorem validate_signature_spec (st : Store) (now : Int) (tok : ApiChallengeToken)
    (timestamp nonce method path body_hash signature : String)
    (hfind : st.tokens.find? (fun t => t.token == tok.token) = some tok)
    (hvalid : tok.is_valid now = true) :
    (RequestSigningService.validate_signature st now tok.token timestamp nonce method path
        body_hash signature = .ok true ↔
      signature = RequestSigningService.calculate_signature tok.token tok.secret timestamp
        nonce method path body_hash) ∧
    (signature ≠ RequestSigningService.calculate_signature tok.token tok.secret timestamp
        nonce method path body_hash →
      RequestSigningService.validate_signature st now tok.token timestamp nonce method path
        body_hash signature = .error (.invalidSignature "Invalid signature")) ∧
    (∀ secret' : String,
      RequestSigningService.calculate_signature tok.token secret' timestamp nonce method
          path body_hash ≠
        RequestSigningService.calculate_signature tok.token tok.secret timestamp nonce
          method path body_hash →
      RequestSigningService.validate_signature st now tok.token timestamp nonce method path
          body_hash
          (RequestSigningService.calculate_signature tok.token secret' timestamp nonce
            method path body_hash) =
        .error (.invalidSignature "Invalid signature")) := by
  have hsec : ChallengeTokenService.get_token_secret st now tok.token = .ok tok.secret := by
    simp [ChallengeTokenService.get_token_secret, ChallengeTokenService.validate_token,
      hfind, hvalid, Except.map]
  have key : ∀ sig : String,
      RequestSigningService.validate_signature st now tok.token timestamp nonce method path
          body_hash sig =
        (if RequestSigningService.calculate_signature tok.token tok.secret timestamp nonce
              method path body_hash = sig
         then .ok true else .error (.invalidSignature "Invalid signature")) := by
    intro sig
    unfold RequestSigningService.validate_signature
    rw [hsec]
    by_cases h : RequestSigningService.calculate_signature tok.token tok.secret timestamp
        nonce method path body_hash = sig
    · simp [RequestSigningService.compare_digest, h]
    · simp [RequestSigningService.compare_digest, h]
  refine ⟨?_, fun hne => ?_, fun secret' hne => ?_⟩
  · rw [key signature]
    by_cases h : RequestSigningService.calculate_signature tok.token tok.secret timestamp
        nonce method path body_hash = signature
    · simp [h]
    · simp [h]
      exact fun he => h he.symm
  · rw [key signature, if_neg (fun he => hne he.symm)]
  · rw [key _, if_neg (fun he => hne he.symm)]

/-- Witness for C5: the correctly computed signature for the fixture token
and request fields is accepted. -/
theorem validate_signature_spec_witness :
    RequestSigningService.validate_signature stW 990 "tokA" "990" "n1" "POST" "/api/orders/"
      "" sigW = .ok true :=
  (validate_signature_spec stW 990 tokW "990" "n1" "POST" "/api/orders/" "" sigW
    (by decide) (by decide)).1.mpr rfl

/-- Counterexample for C7: two authentication failures of different kinds
(missing headers and unknown token) both yield 401 but carry different
`error` payloads, so the payload is not the same regardless of which check
failed. -/
theorem gate_distinct_payloads :
    (ApiSecurityMiddleware.process_request settingsW 990 stW reqMissingW).1 =
      .response 401 "Missing required security headers" ∧
    (ApiSecurityMiddleware.process_request settingsW 990 stW reqBadTokenW).1 =
      .response 401 "Invalid or expired token" ∧
    ("Missing required security headers" : String) ≠ "Invalid or expired token" := by
  decide

/-- C7 (amended): every rejection the gate's validation chain produces has
status 401 with a JSON body holding a single `error` message (whose text
varies with the failed check); no validation failure is reported with any
other status. -/
theorem gate_failures_all_401 (s : Settings) (now : Int) (st : Store) (req : Request) :
    (ApiSecurityMiddleware.process_request s now st req).1 = .passthrough ∨
    ∃ msg, (ApiSecurityMiddleware.process_request s now st req).1 = .response 401 msg := by
  unfold ApiSecurityMiddleware.process_request
  repeat' split
  all_goals try simp
  all_goals
    cases h1 : ChallengeTokenService.validate_token st now (req.header_token.getD "") with
    | error e => simp [h1]
    | ok tokobj =>
      simp only [h1]
      cases h2 : RequestSigningService.validate_timestamp s now (req.header_timestamp.getD "") with
      | error e => simp [h2]
      | ok ts =>
        simp only [h2]
        cases h3 : RequestSigningService.check_nonce s now st tokobj (req.header_nonce.getD "") with
        | error e => simp [h3]
        | ok pr =>
          obtain ⟨nobj, st2⟩ := pr
          simp only [h3]
          cases h4 : RequestSigningService.validate_signature st2 now (req.header_token.getD "")
              (req.header_timestamp.getD "") (req.header_nonce.getD "") req.method req.path
              (RequestSigningService.hash_body req.body) (req.header_signature.getD "") with
          | error e => simp [h4]
          | ok b2 => simp [h4]

/-- C8: on a gated request whose origin check passes, a present-but-empty
security header is rejected exactly like an absent one: the MissingHeaders
401 response, produced before any token, timestamp, nonce or signature
processing, with the store left untouched. -/
theorem gate_empty_header_is_missing (s : Settings) (now : Int) (st : Store) (req : Request)
    (hskip : ApiSecurityMiddleware.should_skip_validation req.path = false)
    (hopt : (req.method == "OPTIONS") = false)
    (hapi : strStartsWith req.path "/api/" = true)
    (hweb : strContainsSub req.path "/webhook/" = false)
    (b : Bool) (horigin : OriginValidator.validate_origin s req.origin req.referer = .ok b)
    (hempty : req.header_token = some "" ∨ req.header_timestamp = some "" ∨
              req.header_nonce = some "" ∨ req.header_signature = some "") :
    ApiSecurityMiddleware.process_request s now st req =
      (.response 401 "Missing required security headers", st) ∧
    ApiSecurityMiddleware.process_request s now st (dropBlankHeaders req) =
      (.response 401 "Missing required security headers", st) := by
  have htr : (ApiSecurityMiddleware.truthy req.header_token &&
              ApiSecurityMiddleware.truthy req.header_timestamp &&
              ApiSecurityMiddleware.truthy req.header_nonce &&
              ApiSecurityMiddleware.truthy req.header_signature) = false := by
    rcases hempty with h | h | h | h <;> simp [ApiSecurityMiddleware.truthy, h]
  have htr' : (ApiSecurityMiddleware.truthy (dropBlankHeaders req).header_token &&
              ApiSecurityMiddleware.truthy (dropBlankHeaders req).header_timestamp &&
              ApiSecurityMiddleware.truthy (dropBlankHeaders req).header_nonce &&
              ApiSecurityMiddleware.truthy (dropBlankHeaders req).header_signature) = false := by
    rcases hempty with h | h | h | h <;>
      simp [ApiSecurityMiddleware.truthy, dropBlankHeaders, h]
  constructor
  · unfold ApiSecurityMiddleware.process_request
    simp [hskip, hopt, hapi, hweb, horigin, htr]
  · unfold ApiSecurityMiddleware.process_request
    simp only [dropBlankHeaders] at htr' ⊢
    simp [hskip, hopt, hapi, hweb, horigin, htr']

/-- Witness for C8: an empty `X-Api-Nonce` value on an otherwise well-formed
request is rejected with the MissingHeaders response, store unchanged. -/
theorem gate_empty_header_is_missing_witness :
    ApiSecurityMiddleware.process_request settingsW 990 stW reqEmptyNonceW =
      (.response 401 "Missing required security headers", stW) :=
  (gate_empty_header_is_missing settingsW 990 stW reqEmptyNonceW (by decide) (by decide)
    (by decide) (by decide) true (by decide) (Or.inr (Or.inr (Or.inl (by decide))))).1

/-- C9: the gate registers the nonce before verifying the signature, so a
request rejected with `SignatureMismatch` has permanently consumed its
nonce: the store it leaves behind holds the nonce record and the cache
flag, and a later request presenting the same nonce — even one whose
signature is correct — is rejected as `NonceReused`. -/
theorem gate_nonce_consumed_before_signature
    (s : Settings) (now1 now2 : Int) (st : Store) (req1 req2 : Request)
    (tok tok2 : ApiChallengeToken) (v ts1 ts2 sig1 : String)
    (h1skip : ApiSecurityMiddleware.should_skip_validation req1.path = false)
    (h1opt : (req1.method == "OPTIONS") = false)
    (h1api : strStartsWith req1.path "/api/" = true)
    (h1web : strContainsSub req1.path "/webhook/" = false)
    (b1 : Bool)
    (h1origin : OriginValidator.validate_origin s req1.origin req1.referer = .ok b1)
    (h1tok : req1.header_token = some tok.token) (h1tokne : tok.token ≠ "")
    (h1ts : req1.header_timestamp = some ts1) (h1tsne : ts1 ≠ "")
    (h1n : req1.header_nonce = some v) (h1vne : v ≠ "")
    (h1sig : req1.header_signature = some sig1) (h1signe : sig1 ≠ "")
    (h1find : st.tokens.find? (fun t => t.token == tok.token) = some tok)
    (h1valid : tok.is_valid now1 = true)
    (i1 : Int)
    (h1tsv : RequestSigningService.validate_timestamp s now1 ts1 = .ok i1)
    (h1fresh_db : ¬ ∃ x ∈ st.nonces, x.nonce = v)
    (h1fresh_cache : ("api_nonce:" ++ v) ∉ st.nonce_cache)
    (h1sigbad : sig1 ≠ RequestSigningService.calculate_signature tok.token tok.secret ts1 v
        req1.method req1.path (RequestSigningService.hash_body req1.body))
    (h2skip : ApiSecurityMiddleware.should_skip_validation req2.path = false)
    (h2opt : (req2.method == "OPTIONS") = false)
    (h2api : strStartsWith req2.path "/api/" = true)
    (h2web : strContainsSub req2.path "/webhook/" = false)
    (b2 : Bool)
    (h2origin : OriginValidator.validate_origin s req2.origin req2.referer = .ok b2)
    (h2tok : req2.header_token = some tok2.token) (h2tokne : tok2.token ≠ "")
    (h2ts : req2.header_timestamp = some ts2) (h2tsne : ts2 ≠ "")
    (h2n : req2.header_nonce = some v)
    (sig2 : String) (h2sig : req2.header_signature = some sig2) (h2signe : sig2 ≠ "")
    (h2find : st.tokens.find? (fun t => t.token == tok2.token) = some tok2)
    (h2valid : tok2.is_valid now2 = true)
    (i2 : Int)
    (h2tsv : RequestSigningService.validate_timestamp s now2 ts2 = .ok i2) :
    (ApiSecurityMiddleware.process_request s now1 st req1).1 =
      .response 401 "Invalid signature" ∧
    ("api_nonce:" ++ v) ∈ (ApiSecurityMiddleware.process_request s now1 st req1).2.nonce_cache ∧
    (∃ x ∈ (ApiSecurityMiddleware.process_request s now1 st req1).2.nonces, x.nonce = v) ∧
    (ApiSecurityMiddleware.process_request s now2
        (ApiSecurityMiddleware.process_request s now1 st req1).2 req2).1 =
      .response 401 "Nonce has already been used" := by
  have e1tok : (tok.token == "") = false := beq_eq_false_iff_ne.mpr h1tokne
  have e1ts : (ts1 == "") = false := beq_eq_false_iff_ne.mpr h1tsne
  have e1v : (v == "") = false := beq_eq_false_iff_ne.mpr h1vne
  have e1sig : (sig1 == "") = false := beq_eq_false_iff_ne.mpr h1signe
  have e2tok : (tok2.token == "") = false := beq_eq_false_iff_ne.mpr h2tokne
  have e2ts : (ts2 == "") = false := beq_eq_false_iff_ne.mpr h2tsne
  have e2sig : (sig2 == "") = false := beq_eq_false_iff_ne.mpr h2signe
  have hnobj : RequestSigningService.check_nonce s now1 st tok v =
      .ok ({ nonce := v, token := tok.token, used_at := now1,
             expires_at := now1 + max s.api_challenge_token_expiry 300 },
           { tokens := st.tokens,
             nonces := st.nonces ++
               [{ nonce := v, token := tok.token, used_at := now1,
                  expires_at := now1 + max s.api_challenge_token_expiry 300 }],
             nonce_cache := st.nonce_cache ++ ["api_nonce:" ++ v] }) := by
    simp [RequestSigningService.check_nonce, h1fresh_db, h1fresh_cache]
  have hsigfail : RequestSigningService.validate_signature
      { tokens := st.tokens,
        nonces := st.nonces ++
          [{ nonce := v, token := tok.token, used_at := now1,
             expires_at := now1 + max s.api_challenge_token_expiry 300 }],
        nonce_cache := st.nonce_cache ++ ["api_nonce:" ++ v] } now1 tok.token ts1 v
      req1.method req1.path (RequestSigningService.hash_body req1.body) sig1 =
      .error (.invalidSignature "Invalid signature") := by
    have hbad : (RequestSigningService.calculate_signature tok.token tok.secret ts1 v
        req1.method req1.path (RequestSigningService.hash_body req1.body) == sig1) = false :=
      beq_eq_false_iff_ne.mpr (fun he => h1sigbad he.symm)
    simp [RequestSigningService.validate_signature, ChallengeTokenService.get_token_secret,
      ChallengeTokenService.validate_token, Except.map, h1find, h1valid,
      RequestSigningService.compare_digest, hbad]
  have hrun1 : ApiSecurityMiddleware.process_request s now1 st req1 =
      (.response 401 "Invalid signature",
       { tokens := st.tokens,
         nonces := st.nonces ++
           [{ nonce := v, token := tok.token, used_at := now1,
              expires_at := now1 + max s.api_challenge_token_expiry 300 }],
         nonce_cache := st.nonce_cache ++ ["api_nonce:" ++ v] }) := by
    unfold ApiSecurityMiddleware.process_request
    simp only [h1skip, h1opt, h1api, h1web, h1origin, h1tok, h1ts, h1n, h1sig,
      ApiSecurityMiddleware.truthy, e1tok, e1ts, e1v, e1sig, Option.getD_some,
      Bool.not_false, Bool.and_self, Bool.not_true, Bool.false_eq_true, if_false,
      Bool.true_and, Bool.and_true]
    simp only [ChallengeTokenService.validate_token, h1find, h1valid, if_true]
    simp only [h1tsv, hnobj, hsigfail]
  have hrun2 : (ApiSecurityMiddleware.process_request s now2
      (ApiSecurityMiddleware.process_request s now1 st req1).2 req2).1 =
      .response 401 "Nonce has already been used" := by
    rw [hrun1]
    have hreuse : RequestSigningService.check_nonce s now2
        { tokens := st.tokens,
          nonces := st.nonces ++
            [{ nonce := v, token := tok.token, used_at := now1,
               expires_at := now1 + max s.api_challenge_token_expiry 300 }],
          nonce_cache := st.nonce_cache ++ ["api_nonce:" ++ v] } tok2 v =
        .error (.nonceReused "Nonce has already been used") := by
      simp [RequestSigningService.check_nonce]
    unfold ApiSecurityMiddleware.process_request
    simp only [h2skip, h2opt, h2api, h2web, h2origin, h2tok, h2ts, h2n, h2sig,
      ApiSecurityMiddleware.truthy, e2tok, e2ts, e1v, e2sig, Option.getD_some,
      Bool.not_false, Bool.and_self, Bool.not_true, Bool.false_eq_true, if_false,
      Bool.true_and, Bool.and_true]
    simp only [ChallengeTokenService.validate_token, h2find, h2valid, if_true]
    simp only [h2tsv, hreuse]
  refine ⟨by rw [hrun1], ?_, ?_, hrun2⟩
  · rw [hrun1]
    simp
  · rw [hrun1]
    refine ⟨{ nonce := v, token := tok.token, used_at := now1,
              expires_at := now1 + max s.api_challenge_token_expiry 300 }, ?_, rfl⟩
    simp

/-- Witness for C9: the fixture request with signature `deadbeef` is
rejected with the signature error yet registers nonce `n1`; replaying `n1`
with the correct signature for timestamp 991 is rejected as nonce reuse. -/
theorem gate_nonce_consumed_before_signature_witness :
    (ApiSecurityMiddleware.process_request settingsW 990 stW reqBadSigW).1 =
      .response 401 "Invalid signature" ∧
    ("api_nonce:" ++ "n1") ∈
      (ApiSecurityMiddleware.process_request settingsW 990 stW reqBadSigW).2.nonce_cache ∧
    (∃ x ∈ (ApiSecurityMiddleware.process_request settingsW 990 stW reqBadSigW).2.nonces,
      x.nonce = "n1") ∧
    (ApiSecurityMiddleware.process_request settingsW 991
        (ApiSecurityMiddleware.process_request settingsW 990 stW reqBadSigW).2 reqReplayW).1 =
      .response 401 "Nonce has already been used" :=
  gate_nonce_consumed_before_signature settingsW 990 991 stW reqBadSigW reqReplayW tokW tokW
    "n1" "990" "991" "deadbeef"
    (by decide) (by decide) (by decide) (by decide) true (by decide)
    rfl (by decide) rfl (by decide) rfl (by decide) rfl (by decide)
    (by decide) (by decide) 990 (by decide) (by decide) (by decide)
    (string_ne_of_length_ne (by rw [calculate_signature_length]; decide))
    (by decide) (by decide) (by decide) (by decide) true (by decide)
    rfl (by decide) rfl (by decide) rfl
    sigW2 rfl
    (string_ne_of_length_ne (by
      show (RequestSigningService.calculate_signature "tokA" "secA" "991" "n1"
        "POST" "/api/orders/" "").length ≠ String.length ""
      rw [calculate_signature_length]
      decide))
    (by decide) (by decide) 991 (by decide)

end Aeternis
